import Mathlib

/-!
Shallow embedding of src/scrapers/futurepedia_scraper.py.

The scraper is a Python pipeline: a category paginator
(get_all_tools_from_category / _list_page_tools), dual extraction clients
(_fetchfox structured client plus a BeautifulSoup fallback), a batch
translation client (OpenRouterTranslator.translate_dict), a per-tool
enrichment routine (scrape_tool_details) and a category orchestrator
(scrape_category) persisting per-tool JSON records and a per-category CSV.

Modelling conventions used throughout:
- Python dicts with string keys and values become association lists
  (Dict below); dict lookup, assignment and update are embedded as
  dget / dset / dupdate with Python semantics.
- Network and HTML-parsing effects (requests, BeautifulSoup, the two
  external APIs) are supplied as explicit oracle parameters: an oracle
  value is the parsed outcome the corresponding Python call would have
  produced, with failure represented by Option or Except.
- The filesystem record store (one JSON file per slug) becomes an
  association list from slug to ToolRecord, passed and returned
  explicitly.
- Python string truthiness (empty string is falsy) is embedded as pyOr.
-/

/-- A Python string-keyed, string-valued dict, as an association list in
insertion order (Python dicts preserve insertion order and have no
duplicate keys; the operations below are faithful on duplicate-free
lists and total on all lists). -/
abbrev Dict := List (String × String)

/-- Association-list lookup: Python d.get(k) / d[k] membership test. -/
def alookup {α : Type} : List (String × α) → String → Option α
  | [], _ => none
  | kv :: t, k => if kv.1 = k then some kv.2 else alookup t k

/-- Dict lookup specialised to string values. -/
def dget (d : Dict) (k : String) : Option String := alookup d k

/-- Total dict access with a default; the embedded code only uses it at
keys that are present in the record templates. -/
def dgetD (d : Dict) (k v : String) : String := (dget d k).getD v

/-- Python dict assignment d[k] = v: replaces the value at k when
present, otherwise appends the new binding at the end. -/
def dset (d : Dict) (k v : String) : Dict :=
  if (dget d k).isSome then d.map (fun kv => if kv.1 = k then (k, v) else kv)
  else d ++ [(k, v)]

/-- Python dict.update(upd) applied to base: keys of base keep their
position and take the updated value when upd has one; keys only in upd
are appended in order. -/
def dupdate (base upd : Dict) : Dict :=
  base.map (fun kv => (kv.1, dgetD upd kv.1 kv.2))
    ++ upd.filter (fun kv => (dget base kv.1).isNone)

/-- Python store assignment keyed by slug (writing the per-slug JSON
file): replace an existing entry or append a new one. -/
def astore {α : Type} (d : List (String × α)) (k : String) (v : α) : List (String × α) :=
  if (alookup d k).isSome then d.map (fun kv => if kv.1 = k then (k, v) else kv)
  else d ++ [(k, v)]

/-- Key list of a dict. -/
def dkeys (d : Dict) : List String := d.map Prod.fst

/-- Python string truthiness in a or b: the first operand unless it is
the empty string. -/
def pyOr (a b : String) : String := if a = "" then b else a

/-- Substring test on character lists, used to embed the Python
membership test needle in haystack. -/
def subOf (needle : List Char) : List Char → Bool
  | [] => needle.isEmpty
  | c :: t => needle.isPrefixOf (c :: t) || subOf needle t

/-- Python substring membership needle in hay. -/
def strIn (needle hay : String) : Bool := subOf needle.toList hay.toList

/-- Python slice s[:n] on code points. -/
def strTake (s : String) (n : Nat) : String := (s.toList.take n).asString

/-- ASCII lower-casing of one character, as Python str.lower acts on
the ASCII range used by this scraper. -/
def lowerChar (c : Char) : Char :=
  if 'A' ≤ c ∧ c ≤ 'Z' then Char.ofNat (c.toNat + 32) else c

/-- Python s.lower() over the code points of s. -/
def strLower (s : String) : String := (s.toList.map lowerChar).asString

/-- ASCII whitespace, the characters Python str.strip removes in the
inputs this scraper handles. -/
def isSpaceChar (c : Char) : Bool := c = ' ' || c = '\t' || c = '\n' || c = '\r'

/-- Python s.strip(): drop whitespace from both ends. -/
def strTrim (s : String) : String :=
  (((s.toList.dropWhile isSpaceChar).reverse.dropWhile isSpaceChar).reverse).asString

/-- Left-to-right non-overlapping replacement over character lists with
explicit fuel (one unit per consumed character); with a nonempty
pattern the fuel equal to the input length is always sufficient. -/
def replaceFuel (pat rep : List Char) : Nat → List Char → List Char
  | 0, s => s
  | fuel + 1, s =>
    match s with
    | [] => []
    | c :: t =>
      if pat ≠ [] ∧ pat.isPrefixOf (c :: t) then
        rep ++ replaceFuel pat rep fuel (List.drop pat.length (c :: t))
      else c :: replaceFuel pat rep fuel t

/-- Python s.replace(pat, rep) for the nonempty patterns used by the
search-term table (an empty pattern leaves the string unchanged). -/
def strReplace (s pat rep : String) : String :=
  (replaceFuel pat.toList rep.toList s.toList.length s.toList).asString

/-- Python s.rstrip with the slash character. -/
def rstripSlash (s : String) : String :=
  ((s.toList.reverse.dropWhile (fun c => c = '/')).reverse).asString

/-- Python url.rstrip of slashes followed by split on slash taking the
last segment; used both for category names and tool slugs. -/
def lastSegment (url : String) : String :=
  ((rstripSlash url).splitOn "/").getLastD ""

/-- Models urllib.parse.urljoin for the href shapes this scraper feeds
it: absolute URLs pass through unchanged, anything else is appended to
the base. -/
def urljoin (base rel : String) : String :=
  if rel = "" then base
  else if strIn "://" rel then rel
  else base ++ rel

-- ==== Configuration constants (class _DefaultConfig) ====

/-- Config.BASE_URL. -/
def BASE_URL : String := "https://www.futurepedia.io"

/-- Config.MAX_PAGES_PER_CATEGORY, the pagination safety cap. -/
def MAX_PAGES_PER_CATEGORY : Nat := 200

/-- Config.CONN_RETRIES, the stop_max_attempt_number given to the retry
decorators. -/
def CONN_RETRIES : Nat := 3

-- ==== Static data (TOOL_TEMPLATE and CATEGORY_TRANSLATIONS) ====

/-- One per-language entry of TOOL_TEMPLATE translations. -/
def templateEntry : Dict :=
  [("title", ""), ("shortDescription", ""), ("longDescription", ""),
   ("tags", ""), ("pricingInfo", ""), ("category", ""), ("appType", "")]

/-- CATEGORY_TRANSLATIONS: static per-category translation dictionary,
keyed by the English category slug, then by language. -/
def CATEGORY_TRANSLATIONS : List (String × Dict) :=
  [("personal-assistant", [("es", "asistente-personal"), ("pt", "assistente-pessoal"), ("en", "personal-assistant"), ("fr", "assistant-personnel"), ("de", "personlicher-assistent")]),
   ("research-assistant", [("es", "asistente-investigacion"), ("pt", "assistente-pesquisa"), ("en", "research-assistant"), ("fr", "assistant-recherche"), ("de", "forschungsassistent")]),
   ("spreadsheet-assistant", [("es", "asistente-hojas-calculo"), ("pt", "assistente-planilhas"), ("en", "spreadsheet-assistant"), ("fr", "assistant-feuilles-calcul"), ("de", "tabellenkalkulation-assistent")]),
   ("translators", [("es", "traductores"), ("pt", "tradutores"), ("en", "translators"), ("fr", "traducteurs"), ("de", "ubersetzer")]),
   ("presentations", [("es", "presentaciones"), ("pt", "apresentacoes"), ("en", "presentations"), ("fr", "presentations"), ("de", "prasentationen")]),
   ("email-assistant", [("es", "asistente-email"), ("pt", "assistente-email"), ("en", "email-assistant"), ("fr", "assistant-email"), ("de", "email-assistent")]),
   ("search-engine", [("es", "motor-busqueda"), ("pt", "motor-busca"), ("en", "search-engine"), ("fr", "moteur-recherche"), ("de", "suchmaschine")]),
   ("prompt-generators", [("es", "generadores-prompts"), ("pt", "geradores-prompts"), ("en", "prompt-generators"), ("fr", "generateurs-prompts"), ("de", "prompt-generatoren")]),
   ("writing-generators", [("es", "generadores-escritura"), ("pt", "geradores-escrita"), ("en", "writing-generators"), ("fr", "generateurs-ecriture"), ("de", "schreib-generatoren")]),
   ("storyteller", [("es", "narrador"), ("pt", "contador-historias"), ("en", "storyteller"), ("fr", "conteur"), ("de", "geschichtenerzahler")]),
   ("summarizer", [("es", "resumidor"), ("pt", "sumarizador"), ("en", "summarizer"), ("fr", "resumeur"), ("de", "zusammenfasser")]),
   ("code-assistant", [("es", "asistente-codigo"), ("pt", "assistente-codigo"), ("en", "code-assistant"), ("fr", "assistant-code"), ("de", "code-assistent")]),
   ("no-code", [("es", "sin-codigo"), ("pt", "sem-codigo"), ("en", "no-code"), ("fr", "sans-code"), ("de", "kein-code")]),
   ("sql-assistant", [("es", "asistente-sql"), ("pt", "assistente-sql"), ("en", "sql-assistant"), ("fr", "assistant-sql"), ("de", "sql-assistent")])]

-- ==== Data model ====

/-- Dataclass ToolInfo: one listing-page card. -/
structure ToolInfo where
  name : String
  url : String
  slug : String
  image_url : String := ""
  short_description : String := ""
  category : String := ""
deriving DecidableEq, Repr

/-- The normalized detail-extraction output shared by
_scrape_detail_fetchfox and _scrape_detail_bs4: the six-key dict
with title, desc, image, redirect, pricing, tags. -/
structure Detail where
  title : String
  desc : String
  image : String
  redirect : String
  pricing : String
  tags : List String
deriving DecidableEq, Repr

/-- The persisted per-tool record (shape of TOOL_TEMPLATE after
scrape_tool_details fills it): top-level strings plus a per-language
translation dict, each language entry itself a dict because
translate_dict may return arbitrary keys that dict.update folds in. -/
structure ToolRecord where
  slug : String
  image_url : String
  redirect_url : String
  demo_url : String
  technical_requirements : String
  searchIndexEn : String
  searchIndexEs : String
  translations : List (String × Dict)
deriving DecidableEq, Repr

/-- Translation entry of a record for one language, defaulting to the
empty dict when absent (records built here always carry all five). -/
def entryOf (r : ToolRecord) (lang : String) : Dict :=
  (alookup r.translations lang).getD []

-- ==== OpenRouterTranslator.translate_dict ====

/-- The marker-prefixed passthrough dict built on both the missing-key
path and the failure path of translate_dict. -/
def fallbackDict (payload : Dict) (target_lang : String) : Dict :=
  payload.map (fun kv => (kv.1, "[TRANSLATE-" ++ target_lang ++ "] " ++ kv.2))

/-- OpenRouterTranslator.translate_dict. apiResponse is the oracle for
the live call: some d when the POST succeeded and the response content
parsed as JSON d, none when any step raised (network error, non-2xx,
malformed JSON). The second component records whether the network was
touched: with an empty api_key the function returns before any request
is issued. -/
def translate_dict (api_key : String) (apiResponse : Option Dict)
    (payload_en : Dict) (target_lang : String) : Dict × Bool :=
  if api_key = "" then (fallbackDict payload_en target_lang, false)
  else
    match apiResponse with
    | some d => (d, true)
    | none => (fallbackDict payload_en target_lang, true)

-- ==== Heuristics: _translate_search_terms and _determine_app_type ====

/-- The mapping dict inside _translate_search_terms, in insertion
order. -/
def searchTermsMapping : List (String × String) :=
  [("assistant", "asistente"), ("personal", "personal"), ("ai", "ia"),
   ("artificial intelligence", "inteligencia artificial"), ("tool", "herramienta"),
   ("generator", "generador"), ("code", "codigo"), ("research", "investigacion"),
   ("writing", "escritura"), ("image", "imagen"), ("video", "video"),
   ("audio", "audio"), ("chat", "chat"), ("chatbot", "chatbot")]

/-- FuturepediaScraper._translate_search_terms: lower-case, then apply
the replacements sequentially. -/
def translate_search_terms (english_terms : String) : String :=
  searchTermsMapping.foldl (fun res p => strReplace res p.1 p.2) (strLower english_terms)

/-- The combined lower-cased classification text of
_determine_app_type. -/
def appText (title description : String) (tags : List String) : String :=
  strLower (title ++ " " ++ description ++ " " ++ String.intercalate " " tags)

/-- FuturepediaScraper._determine_app_type: the fixed if-chain of
keyword categories. -/
def determine_app_type (title description : String) (tags : List String) : String :=
  let text := appText title description tags
  if ["assistant", "chatbot", "chat"].any (fun w => strIn w text) then "assistant"
  else if ["generator", "create", "generate"].any (fun w => strIn w text) then "generator"
  else if ["research", "search", "find"].any (fun w => strIn w text) then "research"
  else if ["write", "writing", "text"].any (fun w => strIn w text) then "writing"
  else if ["image", "photo", "picture"].any (fun w => strIn w text) then "image"
  else if ["video", "movie"].any (fun w => strIn w text) then "video"
  else if ["audio", "music", "sound"].any (fun w => strIn w text) then "audio"
  else if ["code", "programming", "development"].any (fun w => strIn w text) then "code"
  else "other"

/-- The keyword categories of _determine_app_type in their priority
order, spec-side view. -/
def appTypeOrder : List (List String × String) :=
  [(["assistant", "chatbot", "chat"], "assistant"),
   (["generator", "create", "generate"], "generator"),
   (["research", "search", "find"], "research"),
   (["write", "writing", "text"], "writing"),
   (["image", "photo", "picture"], "image"),
   (["video", "movie"], "video"),
   (["audio", "music", "sound"], "audio"),
   (["code", "programming", "development"], "code")]

/-- Spec-side formulation of the classifier: the label of the first
category in priority order with a keyword occurring in the text, with
other as the default. -/
def appTypeFirstMatch (title description : String) (tags : List String) : String :=
  let text := appText title description tags
  ((appTypeOrder.find? (fun c => c.1.any (fun w => strIn w text))).map (fun c => c.2)).getD "other"

-- ==== FuturepediaScraper._fetchfox and its retry decorator ====

/-- One call of the decorated _fetchfox body. post is the oracle for
the requests.post round trip of this attempt: ok d when it returned
JSON d, error e when it raised. Mirrors the source: with no API key the
function returns None before any request; otherwise the whole request
sits inside try/except and any exception is caught and converted to
None. The second component counts network requests issued. -/
def fetchfox_attempt (api_key : String) (post : Except String Dict) :
    Except String (Option Dict) × Nat :=
  if api_key = "" then (Except.ok none, 0)
  else
    match post with
    | Except.ok d => (Except.ok (some d), 1)
    | Except.error _ => (Except.ok none, 1)

/-- The retrying.retry decorator with stop_max_attempt_number: run the
body; a raised exception is retried until the attempt budget is spent
and then re-raised; a returned value (even None) is passed through
without retry. Counts total network requests across attempts. -/
def retryCalls {B : Type} (body : Nat → Except String B × Nat) :
    Nat → Nat → Nat → Except String B × Nat
  | 0, _, calls => (Except.error "retry: no attempts", calls)
  | fuel + 1, i, calls =>
    match body i with
    | (Except.ok b, c) => (Except.ok b, calls + c)
    | (Except.error e, c) =>
      if fuel = 0 then (Except.error e, calls + c)
      else retryCalls body fuel (i + 1) (calls + c)

/-- _fetchfox as deployed: the body wrapped in the 3-attempt fixed-wait
retry decorator. post gives the oracle outcome of the network POST for
each attempt index. -/
def fetchfox (api_key : String) (post : Nat → Except String Dict) :
    Except String (Option Dict) × Nat :=
  retryCalls (fun i => fetchfox_attempt api_key (post i)) CONN_RETRIES 0 0

-- ==== Category listing ====

/-- FuturepediaScraper._extract_category_name. -/
def extract_category_name (category_url : String) : String := lastSegment category_url

/-- One card dict returned by the FetchFox listing selector; get on a
missing key yields none. -/
structure Card where
  href : Option String
  name : Option String
  img : Option String
  desc : Option String
deriving DecidableEq, Repr

/-- The per-card body of the FetchFox branch of _list_page_tools:
cards with a blank href are skipped, the slug is the last path segment
of the joined URL, the name falls back to the slug, relative image URLs
are joined onto the base. -/
def parse_card (category_url : String) (card : Card) : Option ToolInfo :=
  let href := strTrim (card.href.getD "")
  if href = "" then none
  else
    let tool_url := urljoin BASE_URL href
    let slug := lastSegment tool_url
    let name := pyOr (strTrim (card.name.getD "")) slug
    let img0 := strTrim (card.img.getD "")
    let img := if img0 ≠ "" ∧ ¬ img0.startsWith "http" then urljoin BASE_URL img0 else img0
    let desc := strTrim (card.desc.getD "")
    some { name := name, url := tool_url, slug := slug, image_url := img,
           short_description := desc, category := extract_category_name category_url }

/-- A fetched listing page after BeautifulSoup parsing, abstracted:
parsedTools is what _parse_cards_bs4 extracts from its markup and
next_signal is what _has_next_page answers on its soup. -/
structure Page where
  parsedTools : List ToolInfo
  next_signal : Bool
deriving Repr

/-- The per-page slug dedup at the end of _list_page_tools: a Python
dict keyed by slug, so the first occurrence fixes the position and the
last occurrence of a slug wins. -/
def dedupBySlug (ts : List ToolInfo) : List ToolInfo :=
  ts.foldl (fun acc t =>
    if acc.any (fun u => u.slug = t.slug) then
      acc.map (fun u => if u.slug = t.slug then t else u)
    else acc ++ [t]) []

/-- FuturepediaScraper._list_page_tools. fetchfoxData is the oracle for
the _fetchfox call: some cards when it returned a truthy dict with a
cards key, none otherwise. htmlGet is the oracle for the retried
self._get of the same page URL (ok page when the GET and parse
succeeded, error when the retries were exhausted and the exception
propagated). In the FetchFox branch the extra GET only feeds the
next-page probe and its failure is caught and treated as no next page;
in the fallback branch the GET failure propagates to the caller. -/
def list_page_tools (fetchfoxData : Option (List Card))
    (htmlGet : Except String Page) (category_url : String) :
    Except String (List ToolInfo × Bool) :=
  match fetchfoxData with
  | some cards =>
    let tools := cards.filterMap (parse_card category_url)
    let has_next := match htmlGet with
      | Except.ok page => page.next_signal
      | Except.error _ => false
    Except.ok (dedupBySlug tools, has_next)
  | none =>
    match htmlGet with
    | Except.ok page => Except.ok (dedupBySlug page.parsedTools, page.next_signal)
    | Except.error e => Except.error e

/-- The while loop of get_all_tools_from_category, with the remaining
page budget as structural fuel (fuel f at page p encodes the loop
condition p + f = MAX_PAGES_PER_CATEGORY + 1). pageFn abstracts the
_list_page_tools call for each page number; the second component
counts pages fetched. -/
def get_all_tools_aux (pageFn : Nat → List ToolInfo × Bool) :
    Nat → Nat → List ToolInfo → Nat → List ToolInfo × Nat
  | 0, _, acc, fetched => (acc, fetched)
  | fuel + 1, page, acc, fetched =>
    let pr := pageFn page
    if pr.1.isEmpty ∧ 1 < page then (acc, fetched + 1)
    else if pr.2 = false then (acc ++ pr.1, fetched + 1)
    else get_all_tools_aux pageFn fuel (page + 1) (acc ++ pr.1) (fetched + 1)

/-- FuturepediaScraper.get_all_tools_from_category over a synthetic
page sequence: starts at page 1, stops on an empty non-first page
(before appending), on a missing next-page signal (after appending), or
at the page cap. Returns the accumulated tools and the number of pages
fetched. -/
def get_all_tools_from_category (pageFn : Nat → List ToolInfo × Bool) :
    List ToolInfo × Nat :=
  get_all_tools_aux pageFn MAX_PAGES_PER_CATEGORY 1 [] 0

/-- The stopping condition of the pagination loop at one page: zero
cards on a non-first page, or no next-page signal. -/
def stopSignal (pageFn : Nat → List ToolInfo × Bool) (p : Nat) : Bool :=
  ((pageFn p).1.isEmpty && decide (1 < p)) || !(pageFn p).2

-- ==== Tool enrichment: scrape_tool_details ====

/-- FuturepediaScraper.scrape_tool_details. store is the persisted
record directory keyed by slug; detailFetchfox is the oracle for
_scrape_detail_fetchfox (none when it fell through), detailBs4 the
oracle for the _scrape_detail_bs4 fallback, translator the oracle for
self.translator.translate_dict per language and payload. The Bool
records whether any network activity happened: the resume branch
returns the stored record before any extraction or translation call,
every other path performs at least the detail fetch. -/
def scrape_tool_details (store : List (String × ToolRecord))
    (detailFetchfox : Option Detail) (detailBs4 : Detail)
    (translator : String → Dict → Dict) (tool_info : ToolInfo) :
    ToolRecord × Bool :=
  match alookup store tool_info.slug with
  | some existing => (existing, false)
  | none =>
    let detail := detailFetchfox.getD detailBs4
    let title := pyOr detail.title tool_info.name
    let desc := pyOr detail.desc tool_info.short_description
    let tags := detail.tags
    let redirect := pyOr detail.redirect ""
    let image_url := pyOr detail.image tool_info.image_url
    let searchIndexEn := strLower title ++ " " ++ strLower desc ++ " " ++ String.intercalate " " tags
    let searchIndexEs := translate_search_terms searchIndexEn
    let enEntry := dupdate templateEntry
      [("title", title),
       ("shortDescription", strTrim (pyOr tool_info.short_description (strTake desc 180 ++ "…"))),
       ("longDescription", strTrim desc),
       ("tags", String.intercalate ", " (tags.take 12)),
       ("pricingInfo", detail.pricing),
       ("category", tool_info.category),
       ("appType", determine_app_type title desc tags)]
    let pack :=
      [("title", dgetD enEntry "title" ""),
       ("shortDescription", dgetD enEntry "shortDescription" ""),
       ("longDescription", dgetD enEntry "longDescription" ""),
       ("tags", dgetD enEntry "tags" ""),
       ("pricingInfo", dgetD enEntry "pricingInfo" ""),
       ("category", dgetD enEntry "category" ""),
       ("appType", dgetD enEntry "appType" "")]
    let langEntry := fun (lang : String) =>
      let cat := dgetD enEntry "category" ""
      let cat_map := (alookup CATEGORY_TRANSLATIONS cat).getD []
      let cat_trans := dget cat_map lang
      let translated := translator lang pack
      let translated := match cat_trans with
        | some c => if c ≠ "" then dset translated "category" c else translated
        | none => translated
      dupdate templateEntry translated
    ({ slug := tool_info.slug,
       image_url := image_url,
       redirect_url := redirect,
       demo_url := "",
       technical_requirements := "Navegador web moderno, conexión a internet estable",
       searchIndexEn := searchIndexEn,
       searchIndexEs := searchIndexEs,
       translations :=
         [("es", langEntry "es"), ("pt", langEntry "pt"), ("en", enEntry),
          ("fr", langEntry "fr"), ("de", langEntry "de")] }, true)

-- ==== Persistence and the category orchestrator ====

/-- One row of the category CSV as written by _save_category_csv. -/
structure CsvRow where
  slug : String
  title_en : String
  title_es : String
  short_description_en : String
  short_description_es : String
  category : String
  app_type : String
  pricing_en : String
  pricing_es : String
  image_url : String
  redirect_url : String
  tags_en : String
  tags_es : String
  search_index_en : String
  search_index_es : String
deriving DecidableEq, Repr

/-- The row projection of _save_category_csv for one record. -/
def csvRowOf (t : ToolRecord) : CsvRow :=
  { slug := t.slug,
    title_en := dgetD (entryOf t "en") "title" "",
    title_es := dgetD (entryOf t "es") "title" "",
    short_description_en := dgetD (entryOf t "en") "shortDescription" "",
    short_description_es := dgetD (entryOf t "es") "shortDescription" "",
    category := dgetD (entryOf t "en") "category" "",
    app_type := dgetD (entryOf t "en") "appType" "",
    pricing_en := dgetD (entryOf t "en") "pricingInfo" "",
    pricing_es := dgetD (entryOf t "es") "pricingInfo" "",
    image_url := t.image_url,
    redirect_url := t.redirect_url,
    tags_en := dgetD (entryOf t "en") "tags" "",
    tags_es := dgetD (entryOf t "es") "tags" "",
    search_index_en := t.searchIndexEn,
    search_index_es := t.searchIndexEs }

/-- _save_category_csv: the category CSV is rewritten in one shot from
the given record list. -/
def save_category_csv (rows : List ToolRecord) : List CsvRow := rows.map csvRowOf

/-- FuturepediaScraper.scrape_category. store is the on-disk per-slug
record directory, seen the in-memory seen-set of slugs, tools_info the
listing produced by get_all_tools_from_category, and enrich the oracle
for each scrape_tool_details task (error when the task raised). The
worker pool is modelled by completing the tasks in list order: the
claims settled below concern the row multiset of the CSV and the final
store, which do not depend on the completion order. File writes are
assumed to succeed. Returns the success flag, the final store, and the
written CSV rows (none when no CSV was written). -/
def scrape_category (store : List (String × ToolRecord)) (seen : List String)
    (tools_info : List ToolInfo) (enrich : ToolInfo → Except String ToolRecord) :
    Bool × List (String × ToolRecord) × Option (List CsvRow) :=
  if tools_info.isEmpty then (false, store, none)
  else
    let to_process := tools_info.filter (fun ti => ¬ seen.contains ti.slug)
    if to_process.isEmpty then
      let results := tools_info.filterMap (fun ti => alookup store ti.slug)
      (true, store, some (save_category_csv results))
    else
      let step := fun (st : List (String × ToolRecord) × List ToolRecord) (ti : ToolInfo) =>
        match enrich ti with
        | Except.ok data =>
          if data.slug ≠ "" then (astore st.1 data.slug data, st.2 ++ [data])
          else st
        | Except.error _ => st
      let finals := to_process.foldl step (store, [])
      let reread := tools_info.filterMap (fun ti => alookup finals.1 ti.slug)
      (true, finals.1, some (save_category_csv (finals.2 ++ reread)))

-- ==== Concrete fixtures used by witnesses and counterexamples ====

/-- A minimal persisted record fixture keyed by its slug. -/
def mkRec (s : String) : ToolRecord :=
  { slug := s, image_url := "", redirect_url := "", demo_url := "",
    technical_requirements := "", searchIndexEn := "", searchIndexEs := "",
    translations := [("en", [("title", s)])] }

/-- A minimal listing reference fixture with the given slug. -/
def tiOf (s : String) : ToolInfo := { name := s, url := "", slug := s }

/-- An all-empty detail extraction fixture. -/
def emptyDetail : Detail :=
  { title := "", desc := "", image := "", redirect := "", pricing := "", tags := [] }

/-- Synthetic page sequence whose every page has one card and a
next-page signal. -/
def alwaysMorePages : Nat → List ToolInfo × Bool := fun _ => ([tiOf "s"], true)

/-- Synthetic page sequence whose every page is empty with no
next-page signal. -/
def emptyNoNext : Nat → List ToolInfo × Bool := fun _ => ([], false)

/-- The partial-batch scenario listing: one pre-existing tool and five
unseen ones. -/
def c1Tools : List ToolInfo :=
  [tiOf "pre0", tiOf "t1", tiOf "t2", tiOf "t3", tiOf "t4", tiOf "t5"]

/-- The partial-batch scenario store: only pre0 is persisted. -/
def c1Store : List (String × ToolRecord) := [("pre0", mkRec "pre0")]

/-- The partial-batch scenario enrichment oracle: task t3 raises, the
other four succeed. -/
def c1Enrich (ti : ToolInfo) : Except String ToolRecord :=
  if ti.slug = "t3" then Except.error "boom" else Except.ok (mkRec ti.slug)

/-- The listing reference of the field-fallback counterexample: its
listing short description is nonempty. -/
def c9Ti : ToolInfo :=
  { name := "RefName", url := "u", slug := "s9", image_url := "",
    short_description := "Listing blurb", category := "" }

/-- The detail extraction of the field-fallback counterexample: its
extracted description is nonempty as well. -/
def c9Detail : Detail :=
  { title := "Extracted Title", desc := "Extracted description", image := "",
    redirect := "", pricing := "P", tags := [] }

/-- A listing reference in the code-assistant category, for the
category-override witness. -/
def c7Ti : ToolInfo :=
  { name := "CodeTool", url := "u", slug := "s7", image_url := "",
    short_description := "", category := "code-assistant" }

-- ==== Helper lemmas ====

/-- Python dict assignment makes the assigned key read back the
assigned value. -/
theorem dget_dset_self (d : Dict) (k v : String) : dget (dset d k v) k = some v := by
  induction d with
  | nil => simp [dset, dget, alookup]
  | cons kv t ih =>
    by_cases hk : kv.1 = k
    · have hs : (dget (kv :: t) k).isSome := by simp [dget, alookup, hk]
      simp [dset, hs, dget, alookup, hk]
    · have hd : dget (kv :: t) k = dget t k := by simp [dget, alookup, hk]
      by_cases hs : (dget t k).isSome
      · have hrw : dset (kv :: t) k v
            = (kv :: t).map (fun kv' => if kv'.1 = k then (k, v) else kv') := by
          simp [dset, hd, hs]
        rw [hrw]
        have ht : dget (dset t k v) k = some v := ih
        rw [show dset t k v = t.map (fun kv' => if kv'.1 = k then (k, v) else kv') from by
          simp [dset, hs]] at ht
        simpa [dget, alookup, hk] using ht
      · have hrw : dset (kv :: t) k v = kv :: (t ++ [(k, v)]) := by
          simp [dset, hd, hs]
        rw [hrw]
        have ht : dget (dset t k v) k = some v := ih
        rw [show dset t k v = t ++ [(k, v)] from by simp [dset, hs]] at ht
        simpa [dget, alookup, hk] using ht

-- ==== Claim theorems ====

/-- C3: with no translation credential configured, translate_dict maps
every field to the marker-prefixed passthrough value built from the
target language and the original, and performs no network call. -/
theorem translate_dict_no_credential_marker_passthrough
    (apiResponse : Option Dict) (payload_en : Dict) (target_lang : String) :
    translate_dict "" apiResponse payload_en target_lang =
      (payload_en.map (fun kv => (kv.1, "[TRANSLATE-" ++ target_lang ++ "] " ++ kv.2)), false) := by
  simp [translate_dict, fallbackDict]

/-- C2 counterexample: when the live call is used and the model answers
with a JSON object of different keys, translate_dict returns that
object unchanged, so the output key set differs from the input key
set. -/
theorem translate_dict_live_keys_counterexample :
    "a" ∈ dkeys [("a", "x")] ∧
    "a" ∉ dkeys (translate_dict "k" (some [("b", "y")]) [("a", "x")] "fr").1 := by
  decide

/-- C2 amended: the key set of the translate_dict output equals the key
set of the input exactly on the passthrough paths, namely when no
credential is configured and when the live call or its JSON parse
fails; when the live call succeeds the output is the parsed model
response itself, whose keys are whatever the model returned. -/
theorem translate_dict_key_preservation_cases :
    (∀ (resp : Option Dict) (payload : Dict) (lang : String),
        dkeys (translate_dict "" resp payload lang).1 = dkeys payload)
  ∧ (∀ (key : String) (payload : Dict) (lang : String),
        dkeys (translate_dict key none payload lang).1 = dkeys payload)
  ∧ (∀ (key : String) (resp payload : Dict) (lang : String), key ≠ "" →
        (translate_dict key (some resp) payload lang).1 = resp) := by
  refine ⟨?_, ?_, ?_⟩
  · intro resp payload lang
    simp [translate_dict, fallbackDict, dkeys]
  · intro key payload lang
    by_cases h : key = "" <;> simp [translate_dict, fallbackDict, dkeys, h]
  · intro key resp payload lang h
    simp [translate_dict, h]

/-- Witness for the amended translation key statement at concrete
inputs. -/
theorem translate_dict_key_preservation_cases_witness :
    (translate_dict "k" (some [("b", "y")]) [("a", "x")] "fr").1 = [("b", "y")] :=
  translate_dict_key_preservation_cases.2.2 "k" [("b", "y")] [("a", "x")] "fr" (by decide)

/-- C4 counterexample: with a credential configured and the network
POST failing, the deployed _fetchfox makes exactly one request and
returns ok-none, not the three attempts the claim states: even when a
second attempt would have succeeded, no second request is issued. -/
theorem fetchfox_no_retry_counterexample :
    fetchfox "key" (fun _ => Except.error "timeout") = (Except.ok none, 1)
  ∧ (fetchfox "key" (fun _ => Except.error "timeout")).2 ≠ CONN_RETRIES
  ∧ fetchfox "key" (fun i => if i = 0 then Except.error "timeout" else Except.ok [("cards", "x")])
      = (Except.ok none, 1) :=
  ⟨rfl, by decide, rfl⟩

/-- C4 amended: _fetchfox returns null immediately with no network call
when no credential is configured; otherwise it makes exactly one
request whose failure is caught inside the function body and converted
to null, so the surrounding 3-attempt retry decorator never observes an
exception, no retry happens, and no exception reaches the caller. -/
theorem fetchfox_single_attempt :
    (∀ post : Nat → Except String Dict, fetchfox "" post = (Except.ok none, 0))
  ∧ (∀ (key : String) (post : Nat → Except String Dict), key ≠ "" →
      fetchfox key post =
        (Except.ok (match post 0 with | Except.ok d => some d | Except.error _ => none), 1)) := by
  constructor
  · intro post
    simp [fetchfox, CONN_RETRIES, retryCalls, fetchfox_attempt]
  · intro key post hkey
    cases h : post 0 <;>
      simp [fetchfox, CONN_RETRIES, retryCalls, fetchfox_attempt, hkey, h]

/-- Witness for the amended _fetchfox statement at a concrete failing
oracle. -/
theorem fetchfox_single_attempt_witness :
    fetchfox "k" (fun _ => Except.error "e") = (Except.ok none, 1) :=
  fetchfox_single_attempt.2 "k" (fun _ => Except.error "e") (by decide)

/-- C5: when a persisted record for the slug exists, scrape_tool_details
returns exactly that record and touches nothing else: no extraction
call, no HTML fetch, no translation call. -/
theorem scrape_tool_details_resume_short_circuit
    (store : List (String × ToolRecord)) (detailFetchfox : Option Detail)
    (detailBs4 : Detail) (translator : String → Dict → Dict) (tool_info : ToolInfo)
    (existing : ToolRecord) (h : alookup store tool_info.slug = some existing) :
    scrape_tool_details store detailFetchfox detailBs4 translator tool_info = (existing, false) := by
  simp [scrape_tool_details, h]

/-- Witness for the resume short-circuit at a concrete store. -/
theorem scrape_tool_details_resume_short_circuit_witness :
    scrape_tool_details [("s", mkRec "s")] none emptyDetail (fun _ _ => []) (tiOf "s")
      = (mkRec "s", false) :=
  scrape_tool_details_resume_short_circuit _ _ _ _ _ _ (by decide)

/-- C10: when the structured-extraction API yields the listing cards,
a failure of the extra next-page HTML probe is caught and treated as no
next page, so the page returns its cards with a false next flag instead
of propagating the failure; by contrast, in the fallback branch the
same failure propagates to the caller. -/
theorem fetchfox_branch_next_probe_failure_nonfatal
    (cards : List Card) (category_url : String) (e : String) :
    list_page_tools (some cards) (Except.error e) category_url
      = Except.ok (dedupBySlug (cards.filterMap (parse_card category_url)), false)
  ∧ list_page_tools none (Except.error e) category_url = Except.error e :=
  ⟨rfl, rfl⟩

/-- Reading back an assigned key through alookup. -/
theorem alookup_dset_self (d : Dict) (k v : String) : alookup (dset d k v) k = some v :=
  dget_dset_self d k v

/-- Loop invariant of the pagination while loop: starting at any page
with any fuel, the number of pages fetched is at least one when any
fuel remains, never exceeds the fuel, every page strictly before the
last fetched one showed no stopping condition, and when the loop ended
before exhausting its fuel the last fetched page did show one. -/
theorem get_all_tools_aux_spec (pageFn : Nat → List ToolInfo × Bool) :
    ∀ (fuel page f0 : Nat) (acc : List ToolInfo),
      ∃ m, (get_all_tools_aux pageFn fuel page acc f0).2 = f0 + m ∧ m ≤ fuel ∧
        (1 ≤ fuel → 1 ≤ m) ∧
        (∀ i, i + 1 < m → stopSignal pageFn (page + i) = false) ∧
        (m < fuel → stopSignal pageFn (page + m - 1) = true) := by
  intro fuel
  induction fuel with
  | zero =>
    intro page f0 acc
    refine ⟨0, by simp [get_all_tools_aux], Nat.le_refl 0, by omega,
      fun i hi => absurd hi (by omega), fun h => absurd h (by omega)⟩
  | succ fuel ih =>
    intro page f0 acc
    by_cases hA : (pageFn page).1.isEmpty = true ∧ 1 < page
    · refine ⟨1, ?_, by omega, fun _ => Nat.le_refl 1,
        fun i hi => absurd hi (by omega), fun _ => ?_⟩
      · simp only [get_all_tools_aux]
        rw [if_pos hA]
      · simp [stopSignal, hA.1, hA.2]
    · by_cases hB : (pageFn page).2 = false
      · refine ⟨1, ?_, by omega, fun _ => Nat.le_refl 1,
          fun i hi => absurd hi (by omega), fun _ => ?_⟩
        · simp only [get_all_tools_aux]
          rw [if_neg hA, if_pos hB]
        · simp [stopSignal, hB]
      · obtain ⟨m', hm1, hm2, hm3, hm4, hm5⟩ := ih (page + 1) (f0 + 1) (acc ++ (pageFn page).1)
        have hstep : get_all_tools_aux pageFn (fuel + 1) page acc f0
            = get_all_tools_aux pageFn fuel (page + 1) (acc ++ (pageFn page).1) (f0 + 1) := by
          simp only [get_all_tools_aux]
          rw [if_neg hA, if_neg hB]
        refine ⟨m' + 1, ?_, by omega, fun _ => by omega, ?_, ?_⟩
        · rw [hstep, hm1]; omega
        · intro i hi
          cases i with
          | zero =>
            have hBtrue : (pageFn page).2 = true := by
              cases hpb : (pageFn page).2 <;> simp_all
            by_cases hE : (pageFn page).1.isEmpty = true
            · have hp : ¬ 1 < page := fun hp => hA ⟨hE, hp⟩
              simp [stopSignal, hBtrue, hE, hp]
            · simp [stopSignal, hBtrue, hE]
          | succ j =>
            have hj := hm4 j (by omega)
            rw [show page + (j + 1) = page + 1 + j from by omega]
            exact hj
        · intro hlt
          have hm'1 : 1 ≤ m' := hm3 (by omega)
          rw [show page + (m' + 1) - 1 = page + 1 + m' - 1 from by omega]
          exact hm5 (by omega)

/-- C6: the appType classifier equals the first-match-in-priority-order
formulation for all inputs, and any text containing chatbot (in
particular one also containing generator) classifies as assistant. -/
theorem determine_app_type_priority :
    (∀ (t d : String) (tg : List String),
        determine_app_type t d tg = appTypeFirstMatch t d tg)
  ∧ (∀ (t d : String) (tg : List String),
        strIn "chatbot" (appText t d tg) = true →
        strIn "generator" (appText t d tg) = true →
        determine_app_type t d tg = "assistant") := by
  constructor
  · intro t d tg
    simp only [determine_app_type, appTypeFirstMatch, appTypeOrder]
    generalize appText t d tg = text
    simp only [List.find?]
    generalize (["assistant", "chatbot", "chat"].any fun w => strIn w text) = b1
    generalize (["generator", "create", "generate"].any fun w => strIn w text) = b2
    generalize (["research", "search", "find"].any fun w => strIn w text) = b3
    generalize (["write", "writing", "text"].any fun w => strIn w text) = b4
    generalize (["image", "photo", "picture"].any fun w => strIn w text) = b5
    generalize (["video", "movie"].any fun w => strIn w text) = b6
    generalize (["audio", "music", "sound"].any fun w => strIn w text) = b7
    generalize (["code", "programming", "development"].any fun w => strIn w text) = b8
    cases b1 <;> cases b2 <;> cases b3 <;> cases b4 <;>
      cases b5 <;> cases b6 <;> cases b7 <;> cases b8 <;> rfl
  · intro t d tg h1 _h2
    simp [determine_app_type, h1]

/-- Witness for the classifier priority at a concrete text containing
both chatbot and generator. -/
theorem determine_app_type_priority_witness :
    determine_app_type "Acme chatbot and generator" "" [] = "assistant" :=
  determine_app_type_priority.2 "Acme chatbot and generator" "" [] (by decide) (by decide)

/-- C7: for a tool in English category code-assistant, whatever dict
the translation call returns, the category field of the resulting
record for language fr reads assistant-code: the static dictionary
override wins. -/
theorem category_override_fr_code_assistant
    (store : List (String × ToolRecord)) (detailFetchfox : Option Detail)
    (detailBs4 : Detail) (translator : String → Dict → Dict) (tool_info : ToolInfo)
    (h1 : alookup store tool_info.slug = none)
    (h2 : tool_info.category = "code-assistant") :
    dget (entryOf (scrape_tool_details store detailFetchfox detailBs4 translator tool_info).1 "fr")
        "category" = some "assistant-code" := by
  simp [scrape_tool_details, h1, h2, entryOf, alookup, dupdate, templateEntry,
    CATEGORY_TRANSLATIONS, dget, dgetD, alookup_dset_self]

/-- Witness for the category override with a translator that answers a
junk category. -/
theorem category_override_fr_code_assistant_witness :
    dget (entryOf (scrape_tool_details [] (some c9Detail) emptyDetail
        (fun _ _ => [("category", "junk")]) c7Ti).1 "fr") "category" = some "assistant-code" :=
  category_override_fr_code_assistant [] (some c9Detail) emptyDetail
    (fun _ _ => [("category", "junk")]) c7Ti (by decide) (by decide)

/-- C8: for every synthetic page sequence the pagination loop fetches
at least page 1, never more than the page cap (even under a
persistently true next-page signal), fetches no page beyond one whose
stopping condition held, and, whenever it stopped below the cap, the
last fetched page did satisfy the stopping condition (no next-page
signal, or zero cards on a non-first page). Termination is structural:
the loop is a total function of the page budget. -/
theorem pagination_terminates_within_cap (pageFn : Nat → List ToolInfo × Bool) :
    1 ≤ (get_all_tools_from_category pageFn).2
  ∧ (get_all_tools_from_category pageFn).2 ≤ MAX_PAGES_PER_CATEGORY
  ∧ (∀ q, 1 ≤ q → q < (get_all_tools_from_category pageFn).2 → stopSignal pageFn q = false)
  ∧ ((get_all_tools_from_category pageFn).2 < MAX_PAGES_PER_CATEGORY →
      stopSignal pageFn ((get_all_tools_from_category pageFn).2) = true) := by
  obtain ⟨m, hm1, hm2, hm3, hm4, hm5⟩ :=
    get_all_tools_aux_spec pageFn MAX_PAGES_PER_CATEGORY 1 0 []
  have hn : (get_all_tools_from_category pageFn).2 = m := by
    simpa [get_all_tools_from_category] using hm1
  refine ⟨?_, ?_, ?_, ?_⟩
  · rw [hn]; exact hm3 (by simp [MAX_PAGES_PER_CATEGORY])
  · rw [hn]; exact hm2
  · intro q hq1 hq2
    rw [hn] at hq2
    have hq := hm4 (q - 1) (by omega)
    rwa [show 1 + (q - 1) = q from by omega] at hq
  · intro hlt
    rw [hn] at hlt ⊢
    have hs := hm5 hlt
    rwa [show 1 + m - 1 = m from by omega] at hs

set_option maxRecDepth 4000 in
/-- Witness for pagination at two concrete synthetic sequences: one
with a falsely-persistent next-page signal (cap honoured, page 1 not a
stop page) and one stopping immediately for lack of a next-page
signal. -/
theorem pagination_terminates_within_cap_witness :
    (get_all_tools_from_category alwaysMorePages).2 ≤ MAX_PAGES_PER_CATEGORY
  ∧ stopSignal alwaysMorePages 1 = false
  ∧ stopSignal emptyNoNext 1 = true :=
  ⟨(pagination_terminates_within_cap alwaysMorePages).2.1,
   (pagination_terminates_within_cap alwaysMorePages).2.2.1 1 (by decide) (by decide),
   (pagination_terminates_within_cap emptyNoNext).2.2.2 (by decide)⟩

/-- C9 counterexample: with a nonempty extracted description and a
nonempty listing short description, the record takes shortDescription
from the listing reference, not from the extraction: the stated
preference for the extraction strategy fails for this field. -/
theorem short_description_prefers_listing_counterexample :
    c9Detail.desc ≠ ""
  ∧ dget (entryOf (scrape_tool_details [] (some c9Detail) emptyDetail
      (fun _ _ => []) c9Ti).1 "en") "shortDescription" = some "Listing blurb"
  ∧ ("Listing blurb" : String) ≠ strTrim (strTake c9Detail.desc 180 ++ "…") :=
  ⟨by decide, by rfl, by decide⟩

set_option maxHeartbeats 2000000 in
/-- C9 amended: the extraction-first preference holds for title (with
the listing name as the empty fallback) and for longDescription (with
the listing short description as the fallback when the extracted
description is empty); for shortDescription the preference is
reversed: the listing reference value is used whenever nonempty, and
the truncated extracted description (first 180 characters plus an
ellipsis) only when the listing value is empty. -/
theorem detail_field_fallback_policy
    (store : List (String × ToolRecord)) (detailFetchfox : Option Detail)
    (detailBs4 : Detail) (translator : String → Dict → Dict) (tool_info : ToolInfo)
    (h1 : alookup store tool_info.slug = none) :
    ((detailFetchfox.getD detailBs4).title ≠ "" →
      dget (entryOf (scrape_tool_details store detailFetchfox detailBs4 translator tool_info).1 "en")
        "title" = some (detailFetchfox.getD detailBs4).title)
  ∧ ((detailFetchfox.getD detailBs4).title = "" →
      dget (entryOf (scrape_tool_details store detailFetchfox detailBs4 translator tool_info).1 "en")
        "title" = some tool_info.name)
  ∧ ((detailFetchfox.getD detailBs4).desc ≠ "" →
      dget (entryOf (scrape_tool_details store detailFetchfox detailBs4 translator tool_info).1 "en")
        "longDescription" = some (strTrim (detailFetchfox.getD detailBs4).desc))
  ∧ ((detailFetchfox.getD detailBs4).desc = "" →
      dget (entryOf (scrape_tool_details store detailFetchfox detailBs4 translator tool_info).1 "en")
        "longDescription" = some (strTrim tool_info.short_description))
  ∧ (tool_info.short_description ≠ "" →
      dget (entryOf (scrape_tool_details store detailFetchfox detailBs4 translator tool_info).1 "en")
        "shortDescription" = some (strTrim tool_info.short_description))
  ∧ (tool_info.short_description = "" →
      dget (entryOf (scrape_tool_details store detailFetchfox detailBs4 translator tool_info).1 "en")
        "shortDescription" = some (strTrim (strTake (detailFetchfox.getD detailBs4).desc 180 ++ "…"))) := by
  refine ⟨fun h => ?_, fun h => ?_, fun h => ?_, fun h => ?_, fun h => ?_, fun h => ?_⟩
  · simp [scrape_tool_details, h1, entryOf, alookup, dupdate, templateEntry, dget, dgetD, pyOr, h]
  · simp [scrape_tool_details, h1, entryOf, alookup, dupdate, templateEntry, dget, dgetD, pyOr, h]
  · simp [scrape_tool_details, h1, entryOf, alookup, dupdate, templateEntry, dget, dgetD, pyOr, h]
  · simp [scrape_tool_details, h1, entryOf, alookup, dupdate, templateEntry, dget, dgetD, pyOr, h]
  · simp [scrape_tool_details, h1, entryOf, alookup, dupdate, templateEntry, dget, dgetD, pyOr, h]
  · by_cases hd : (detailFetchfox.getD detailBs4).desc = "" <;>
      simp [scrape_tool_details, h1, entryOf, alookup, dupdate, templateEntry, dget, dgetD,
        pyOr, h, hd]

/-- Witness for the amended field-fallback policy at concrete
extraction and listing data. -/
theorem detail_field_fallback_policy_witness :
    dget (entryOf (scrape_tool_details [] (some c9Detail) emptyDetail
        (fun _ _ => []) c9Ti).1 "en") "shortDescription" = some (strTrim c9Ti.short_description)
  ∧ dget (entryOf (scrape_tool_details [] none emptyDetail
        (fun _ _ => []) c9Ti).1 "en") "longDescription" = some (strTrim c9Ti.short_description) :=
  ⟨(detail_field_fallback_policy [] (some c9Detail) emptyDetail
      (fun _ _ => []) c9Ti (by decide)).2.2.2.2.1 (by decide),
   (detail_field_fallback_policy [] none emptyDetail
      (fun _ _ => []) c9Ti (by decide)).2.2.2.1 (by decide)⟩

/-- C1 (code-bug evidence): in the partial-batch scenario with one
pre-existing tool and five unseen ones of which task t3 raises,
scrape_category returns success, persists exactly the four successful
records (t3 absent), and writes the pre-existing record once, but each
newly scraped record appears twice among the CSV rows: once appended
when its task completed and once more when the final loop re-reads
every listed slug from disk, the just-saved ones included. -/
theorem scrape_category_partial_batch_csv_duplication :
    (scrape_category c1Store ["pre0"] c1Tools c1Enrich).1 = true
  ∧ ((scrape_category c1Store ["pre0"] c1Tools c1Enrich).2.1).map Prod.fst
      = ["pre0", "t1", "t2", "t4", "t5"]
  ∧ alookup (scrape_category c1Store ["pre0"] c1Tools c1Enrich).2.1 "t3" = none
  ∧ ((scrape_category c1Store ["pre0"] c1Tools c1Enrich).2.2.getD []).count
      (csvRowOf (mkRec "t1")) = 2
  ∧ ((scrape_category c1Store ["pre0"] c1Tools c1Enrich).2.2.getD []).count
      (csvRowOf (mkRec "pre0")) = 1 := by
  decide
